import Mathlib

/-!
Verification of the XSBA conversion-orchestration and dual-sink persistence
engine against its design specification.

The Python sources are shallowly embedded as pure Lean functions:

* `store_fragment` embeds `FragmentsBYTEAHandler.store_fragment`
  (F16_CO_FLD_ConvertIfc_Fragments_BYT.py, lines 179-228): the hash-keyed
  idempotent put against one PostgreSQL BYTEA table, with the table state
  made explicit and database reachability abstracted as a boolean oracle.
* `convert_ifc_file` embeds `XFRGSubprocessConverter.convert_ifc_file`
  (backend/subprocess_converter.py, lines 32-148): the child process is
  abstracted as a `ChildBehavior` (wall-clock duration, exit code, output
  streams) and the filesystem after the run as an `Option Nat` giving the
  output artifact size when it exists.
* `convert_single_file`, `fallback_mock_conversion`,
  `process_successful_conversion` and `store_fragment_and_return_result`
  embed the corresponding `ProjectIfcConverter` methods of
  F16_CO_FLD_ConvertIfc_Fragments_BYT.py, with per-item environment
  (worker behavior, filesystem, sink store outcomes) passed explicitly and
  the mutable `self.stats` dict threaded as a `RunStats` value.
* `convert_all_files` embeds the orchestrator loop, `find_ifc_files` the
  discovery step, `convert_ifc_policy` and `convert_ifc_subprocess_timeout`
  the size-tiered resource selection of backend/app.py, and
  `convert_ifc_endpoint` the request validation and success decision of the
  `/api/convert` upload endpoint of backend/app.py.
-/

namespace XSBA

/-- Byte strings are modelled as lists of byte values. -/
abbrev Bytes := List Nat

/-! ## Conversion metadata (the dict built at lines 533-542 and 574-584) -/

/-- The conversion_metadata dict stored alongside a fragment.  Field names
follow the Python keys; `note` models the optional 'note' key that only the
fallback path adds. -/
structure ConversionMetadata where
  conversionTimeSeconds : ℚ
  inputSizeMB : ℚ
  outputSizeMB : ℚ
  compressionRatioPercent : ℚ
  ifcSourcePath : String
  converterVersion : String
  projectName : String
  conversionTimestamp : String
  note : Option String
deriving Repr, DecidableEq

/-! ## Sink state and the idempotent put (FragmentsBYTEAHandler.store_fragment) -/

/-- One row of t5_va.F1600_CO_Fragments_bytea. -/
structure FragmentRecord where
  filename : String
  fileHash : String
  fragmentData : Bytes
  fileSizeBytes : Nat
  ifcSourceFile : String
  conversionMetadata : ConversionMetadata
deriving Repr, DecidableEq

/-- The table state: rows in insertion order (the SERIAL id). -/
abbrev FragmentsTable := List FragmentRecord

/-- The duplicate check of lines 189-196: SELECT id ... WHERE file_hash = h. -/
def tableHasHash (t : FragmentsTable) (h : String) : Bool :=
  t.any (fun r => r.fileHash == h)

/-- Fragment file handed to the sink: its name and content bytes. -/
structure FragmentFile where
  name : String
  data : Bytes
deriving Repr, DecidableEq

/-- Embeds `FragmentsBYTEAHandler.store_fragment` (lines 179-228).
`hashFn` stands for the SHA-256 digest of the file bytes (lines 171-177);
`dbOk` abstracts the try/except around the database round trips: when false
the body raises and the handler returns False (line 228).  On a duplicate
hash the function returns True without inserting (lines 194-196); otherwise
it appends one row and returns True (lines 198-224). -/
def store_fragment (hashFn : Bytes → String) (dbOk : Bool) (t : FragmentsTable)
    (fragmentFile : FragmentFile) (ifcSource : String) (meta : ConversionMetadata) :
    FragmentsTable × Bool :=
  if !dbOk then (t, false)
  else
    let fileHash := hashFn fragmentFile.data
    if tableHasHash t fileHash then (t, true)
    else
      (t ++ [{ filename := fragmentFile.name
               fileHash := fileHash
               fragmentData := fragmentFile.data
               fileSizeBytes := fragmentFile.data.length
               ifcSourceFile := ifcSource
               conversionMetadata := meta }], true)

/-! ## The backend subprocess converter (XFRGSubprocessConverter.convert_ifc_file) -/

/-- Observable behavior of the external worker child process, were it run to
completion: how long it would run (wall-clock seconds), its exit status and
its output streams. -/
structure ChildBehavior where
  duration : Nat
  returncode : Int
  stdout : String
  stderr : String
deriving Repr, DecidableEq

/-- Outcome of trying to launch the child: either the launch itself raised
(missing executable, I/O error) or the child ran with some behavior. -/
inductive LaunchResult where
  | raised (msg : String)
  | ran (b : ChildBehavior)
deriving Repr, DecidableEq

/-- Environment of one `convert_ifc_file` call: whether the input path
exists, what launching the child does, and the state of the output artifact
after the child ran (`none` = missing, `some n` = exists with n bytes). -/
structure XfrgEnv where
  inputFile : String
  inputExists : Bool
  launch : LaunchResult
  outputAfter : Option Nat
deriving Repr, DecidableEq

/-- The result dict of `convert_ifc_file`.  `timeoutField` models the
"timeout" key that only the TimeoutExpired branch adds (line 135);
`returnCodeField` the "return_code" key of the normal-failure branch
(line 121); `fileSize` the "file_size" key of the success branch. -/
structure XfrgResult where
  success : Bool
  error : Option String
  conversionTime : Nat
  timeoutField : Option Nat
  returnCodeField : Option Int
  fileSize : Option Nat
deriving Repr, DecidableEq

/-- Embeds `XFRGSubprocessConverter.convert_ifc_file`
(backend/subprocess_converter.py, lines 32-148).  Returns the result dict
together with a flag recording whether subprocess.run was invoked at all.
subprocess.run with a timeout blocks for at most `timeoutS` seconds and
raises TimeoutExpired when the child would run longer; that library
contract is the `b.duration > timeoutS` branch.  Note the success test of
line 98 is `returncode == 0 and output_path.exists()` - the output size is
read only for reporting, not checked. -/
def convert_ifc_file (env : XfrgEnv) (timeoutS : Nat) : XfrgResult × Bool :=
  if !env.inputExists then
    ({ success := false
       error := some ("Input file not found: " ++ env.inputFile)
       conversionTime := 0
       timeoutField := none
       returnCodeField := none
       fileSize := none }, false)
  else
    match env.launch with
    | LaunchResult.raised msg =>
        ({ success := false
           error := some ("Subprocess execution failed: " ++ msg)
           conversionTime := 0
           timeoutField := none
           returnCodeField := none
           fileSize := none }, true)
    | LaunchResult.ran b =>
        if b.duration > timeoutS then
          ({ success := false
             error := some ("Conversion timed out after " ++ toString timeoutS ++ " seconds")
             conversionTime := timeoutS
             timeoutField := some timeoutS
             returnCodeField := none
             fileSize := none }, true)
        else if b.returncode == 0 && env.outputAfter.isSome then
          ({ success := true
             error := none
             conversionTime := b.duration
             timeoutField := none
             returnCodeField := none
             fileSize := env.outputAfter }, true)
        else
          ({ success := false
             error := some (if b.stderr != "" then b.stderr
                            else "Conversion failed with return code " ++ toString b.returncode)
             conversionTime := b.duration
             timeoutField := none
             returnCodeField := some b.returncode
             fileSize := none }, true)

/-! ## The F16 orchestrator (ProjectIfcConverter) -/

/-- Converter-level configuration fixed at construction time: whether the
primary and the secondary database handlers came up (lines 271-314), and
the project name used in metadata. -/
structure F16Config where
  databaseEnabled : Bool
  secondaryDatabaseEnabled : Bool
  projectName : String
deriving Repr, DecidableEq

/-- Environment of one work item: its file name and content, the behavior
of the portable-converter child (timeout 30 applies), the output artifact
state after the primary attempt, whether the fallback file I/O succeeds,
the timestamp string, and what each sink's store_fragment call would
return if made. -/
structure F16ItemEnv where
  name : String
  path : String
  inputBytes : Bytes
  launch : LaunchResult
  outputAfter : Option Nat
  fallbackOk : Bool
  ts : String
  primaryStore : Bool
  secondaryStore : Bool
deriving Repr, DecidableEq

/-- The per-item result dict appended to stats['results'].  `meta` carries
the conversion metadata of the success paths (the 'stats' sub-dict is
derived from it); the failed dict has none. -/
structure ItemResult where
  file : String
  status : String
  message : String
  conversionTime : ℚ
  dbStored : Bool
  dbStoredSecondary : Bool
  meta : Option ConversionMetadata
deriving Repr, DecidableEq

/-- Trace of the sink phase of one item: which store_fragment calls were
made, what they returned, and the metadata they were passed. -/
structure StoreTrace where
  primaryAttempted : Bool
  primaryStored : Bool
  secondaryAttempted : Bool
  secondaryStored : Bool
  storedMeta : ConversionMetadata
deriving Repr, DecidableEq

/-- The mutable self.stats dict of ProjectIfcConverter (lines 336-349),
threaded explicitly. -/
structure RunStats where
  totalFiles : Nat
  successful : Nat
  failed : Nat
  skipped : Nat
  dbStored : Nat
  dbFailed : Nat
  dbStoredSecondary : Nat
  dbFailedSecondary : Nat
  results : List ItemResult
deriving Repr, DecidableEq

/-- All-zero statistics, as set up in __init__. -/
def emptyStats : RunStats :=
  { totalFiles := 0, successful := 0, failed := 0, skipped := 0,
    dbStored := 0, dbFailed := 0, dbStoredSecondary := 0,
    dbFailedSecondary := 0, results := [] }

/-- Megabytes of a byte count: size / (1024 * 1024), as at lines 524-525. -/
def mbOfBytes (n : Nat) : ℚ := (n : ℚ) / (1024 * 1024)

/-- Metadata built by `_process_successful_conversion` (lines 521-542),
including the guarded compression-ratio computation of line 526. -/
def process_successful_metadata (projectName path ts : String)
    (inputLen outputLen : Nat) (ctime : ℚ) : ConversionMetadata :=
  let inputSizeMB := mbOfBytes inputLen
  let outputSizeMB := mbOfBytes outputLen
  { conversionTimeSeconds := ctime
    inputSizeMB := inputSizeMB
    outputSizeMB := outputSizeMB
    compressionRatioPercent :=
      if inputSizeMB > 0 then ((inputSizeMB - outputSizeMB) / inputSizeMB) * 100 else 0
    ifcSourcePath := path
    converterVersion := "portable_ifc_fragments_converter"
    projectName := projectName
    conversionTimestamp := ts
    note := none }

/-- Metadata built by `_fallback_mock_conversion` (lines 563-584),
including the guarded compression-ratio computation of line 566. -/
def fallback_metadata (projectName path ts : String)
    (inputLen outputLen : Nat) (ctime : ℚ) : ConversionMetadata :=
  let inputSizeMB := mbOfBytes inputLen
  let outputSizeMB := mbOfBytes outputLen
  { conversionTimeSeconds := ctime
    inputSizeMB := inputSizeMB
    outputSizeMB := outputSizeMB
    compressionRatioPercent :=
      if inputSizeMB > 0 then ((inputSizeMB - outputSizeMB) / inputSizeMB) * 100 else 0
    ifcSourcePath := path
    converterVersion := "mock_converter_fallback"
    projectName := projectName
    conversionTimestamp := ts
    note := some "Mock conversion used due to portable converter issues" }

/-- The sentinel header written by the fallback (line 556). -/
def mockHeader : Bytes := "MOCK_FRAGMENT_HEADER\n".data.map Char.toNat

/-- The sentinel footer written by the fallback (line 556). -/
def mockFooter : Bytes := "\nMOCK_FRAGMENT_FOOTER".data.map Char.toNat

/-- The placeholder artifact of line 556: header, first 1024 input bytes,
footer. -/
def fallbackArtifact (input : Bytes) : Bytes :=
  mockHeader ++ input.take 1024 ++ mockFooter

/-- Embeds `ProjectIfcConverter._store_fragment_and_return_result`
(lines 599-657): the primary sink is attempted iff it is enabled; the
secondary sink is attempted iff it is enabled and (the primary is disabled,
or the primary store for this item returned True); counters updated
accordingly.  `primaryStore` and `secondaryStore` give the return value of
the respective handler's store_fragment call, were it made. -/
def store_fragment_and_return_result (cfg : F16Config)
    (primaryStore secondaryStore : Bool) (stats : RunStats)
    (fileName : String) (ctime : ℚ) (meta : ConversionMetadata) :
    RunStats × ItemResult × StoreTrace :=
  let dbStoredPrimary := if cfg.databaseEnabled then primaryStore else false
  let stats1 :=
    if cfg.databaseEnabled then
      if primaryStore then { stats with dbStored := stats.dbStored + 1 }
      else { stats with dbFailed := stats.dbFailed + 1 }
    else stats
  let canAttemptSecondary := if cfg.databaseEnabled then dbStoredPrimary else true
  let secondaryAttempted := cfg.secondaryDatabaseEnabled && canAttemptSecondary
  let dbStoredSecondary := if secondaryAttempted then secondaryStore else false
  let stats2 :=
    if secondaryAttempted then
      if secondaryStore then
        { stats1 with dbStoredSecondary := stats1.dbStoredSecondary + 1 }
      else { stats1 with dbFailedSecondary := stats1.dbFailedSecondary + 1 }
    else stats1
  (stats2,
   { file := fileName
     status := "success"
     message := "Conversion successful"
     conversionTime := ctime
     dbStored := dbStoredPrimary
     dbStoredSecondary := dbStoredSecondary
     meta := some meta },
   { primaryAttempted := cfg.databaseEnabled
     primaryStored := dbStoredPrimary
     secondaryAttempted := secondaryAttempted
     secondaryStored := dbStoredSecondary
     storedMeta := meta })

/-- The three-valued secondary-sink status shown per item in the summary. -/
inductive DB2Status where
  | stored
  | failedStore
  | notAttempted
deriving Repr, DecidableEq

/-- Embeds the per-result secondary-database reporting of `print_summary`
(lines 770-785): DB2 shows stored/failed only when a secondary attempt was
derived for that result, and the distinct not-attempted marker otherwise;
nothing is shown when the secondary sink is disabled. -/
def db2_info (cfg : F16Config) (r : ItemResult) : Option DB2Status :=
  if cfg.secondaryDatabaseEnabled then
    let attempted :=
      r.status == "success" && (if cfg.databaseEnabled then r.dbStored else true)
    some (if attempted then
            (if r.dbStoredSecondary then DB2Status.stored else DB2Status.failedStore)
          else DB2Status.notAttempted)
  else none

/-- Elapsed wall-clock seconds of the primary attempt: the launch exception
is immediate, a run blocks for the child duration capped by the 30 second
timeout of line 490. -/
def elapsedOf (env : F16ItemEnv) : ℚ :=
  match env.launch with
  | LaunchResult.raised _ => 0
  | LaunchResult.ran b => (min b.duration 30 : Nat)

/-- Embeds `ProjectIfcConverter._fallback_mock_conversion` (lines 546-597):
write the placeholder artifact and store it, or return the failed dict when
the fallback file I/O itself raises. -/
def fallback_mock_conversion (cfg : F16Config) (env : F16ItemEnv)
    (stats : RunStats) : RunStats × ItemResult × Option StoreTrace :=
  if env.fallbackOk then
    let mockData := fallbackArtifact env.inputBytes
    let meta := fallback_metadata cfg.projectName env.path env.ts
      env.inputBytes.length mockData.length (elapsedOf env)
    let out := store_fragment_and_return_result cfg env.primaryStore
      env.secondaryStore stats env.name (elapsedOf env) meta
    (out.1, out.2.1, some out.2.2)
  else
    (stats,
     { file := env.name
       status := "failed"
       message := "Mock conversion failed"
       conversionTime := elapsedOf env
       dbStored := false
       dbStoredSecondary := false
       meta := none }, none)

/-- Embeds `ProjectIfcConverter._process_successful_conversion`
(lines 521-544): build the metadata from the real input and output sizes
and store. -/
def process_successful_conversion (cfg : F16Config) (env : F16ItemEnv)
    (stats : RunStats) (outputLen : Nat) : RunStats × ItemResult × Option StoreTrace :=
  let meta := process_successful_metadata cfg.projectName env.path env.ts
    env.inputBytes.length outputLen (elapsedOf env)
  let out := store_fragment_and_return_result cfg env.primaryStore
    env.secondaryStore stats env.name (elapsedOf env) meta
  (out.1, out.2.1, some out.2.2)

/-- Embeds `ProjectIfcConverter.convert_single_file` (lines 458-519).
A launch exception, a timeout (duration above the 30 second bound), a
non-zero exit, or a zero exit with a missing or empty output artifact all
fall into the fallback; only a zero exit with an existing non-empty output
reaches `_process_successful_conversion`. -/
def convert_single_file (cfg : F16Config) (env : F16ItemEnv)
    (stats : RunStats) : RunStats × ItemResult × Option StoreTrace :=
  match env.launch with
  | LaunchResult.raised _ => fallback_mock_conversion cfg env stats
  | LaunchResult.ran b =>
      if b.duration > 30 then fallback_mock_conversion cfg env stats
      else if b.returncode == 0 then
        match env.outputAfter with
        | some sz =>
            if 0 < sz then process_successful_conversion cfg env stats sz
            else fallback_mock_conversion cfg env stats
        | none => fallback_mock_conversion cfg env stats
      else fallback_mock_conversion cfg env stats

/-- A result marked as a primary-converted success: status success and the
stored metadata names the portable converter. -/
def isPrimarySuccess (r : ItemResult) : Bool :=
  r.status == "success" &&
    (match r.meta with
     | some m => m.converterVersion == "portable_ifc_fragments_converter"
     | none => false)

/-- The per-item result of one conversion, which is a function of the
configuration and the item environment alone (the threaded statistics only
accumulate counters). -/
def itemResult (cfg : F16Config) (env : F16ItemEnv) : ItemResult :=
  (convert_single_file cfg env emptyStats).2.1

/-! ## Discovery, the run loop and the report
(find_ifc_files, convert_all_files, save_report) -/

/-- Embeds `ProjectIfcConverter.find_ifc_files` (lines 430-456): glob the
two patterns, concatenate, then sorted(set(...)).  `entries` is the
directory listing; sorting a finite set of strings under the total
lexicographic order has a unique result, here computed by insertion sort
over the deduplicated matches. -/
def find_ifc_files (entries : List String) : List String :=
  List.insertionSort (· ≤ ·)
    ((entries.filter (fun n => n.endsWith ".ifc")
      ++ entries.filter (fun n => n.endsWith ".IFC")).dedup)

/-- One iteration of the loop of `convert_all_files` (lines 675-691):
convert, append the result record, bump the matching counter. -/
def processItem (cfg : F16Config) (acc : RunStats) (env : F16ItemEnv) : RunStats :=
  let out := convert_single_file cfg env acc
  let r := out.2.1
  let s := { out.1 with results := out.1.results ++ [r] }
  if r.status == "success" then { s with successful := s.successful + 1 }
  else if r.status == "failed" then { s with failed := s.failed + 1 }
  else if r.status == "skipped" then { s with skipped := s.skipped + 1 }
  else s

/-- Embeds `ProjectIfcConverter.save_report` (lines 796-820): the write is
wrapped in try/except, a failure is logged and swallowed; the returned flag
says whether the report file was written. -/
def save_report (writeOk : Bool) : Bool :=
  if writeOk then true else false

/-- Outcome of one whole run: the final statistics, whether a report save
was reached at all, and whether it succeeded. -/
structure RunOutcome where
  stats : RunStats
  reportAttempted : Bool
  reportSaved : Bool
deriving Repr, DecidableEq

/-- Embeds `ProjectIfcConverter.convert_all_files` (lines 659-697) followed
by `print_summary` and its `save_report` call (line 791): set total_files,
return early when no files were found (lines 670-672, reaching no report),
otherwise process every item in order and then save the report. -/
def convert_all_files (cfg : F16Config) (items : List F16ItemEnv)
    (reportWriteOk : Bool) : RunOutcome :=
  let stats0 := { emptyStats with totalFiles := items.length }
  if items.isEmpty then
    { stats := stats0, reportAttempted := false, reportSaved := false }
  else
    { stats := items.foldl (processItem cfg) stats0
      reportAttempted := true
      reportSaved := save_report reportWriteOk }

/-! ## The backend tier policies (backend/app.py) -/

/-- A Node.js resource policy: the value of the max-old-space-size flag when
one is passed (absent means the Node default heap, below every explicitly
raised ceiling here) and the subprocess timeout in seconds. -/
structure NodePolicy where
  maxOldSpaceMB : Option Nat
  timeoutSeconds : Nat
deriving Repr, DecidableEq

/-- Embeds the size-tiered command construction of `convert_ifc`
(backend/app.py, lines 174-204): above 50 MB an 8192 MB heap and a
3600 second timeout, above 20 MB a 4096 MB heap and 1800 seconds, else no
heap flag and 600 seconds. -/
def convert_ifc_policy (sizeBytes : Nat) : NodePolicy :=
  let fileSizeMB : ℚ := (sizeBytes : ℚ) / (1024 * 1024)
  if fileSizeMB > 50 then { maxOldSpaceMB := some 8192, timeoutSeconds := 3600 }
  else if fileSizeMB > 20 then { maxOldSpaceMB := some 4096, timeoutSeconds := 1800 }
  else { maxOldSpaceMB := none, timeoutSeconds := 600 }

/-- Memory budget of a policy in MB, with the absent flag (Node default
heap) ranked below every explicit ceiling. -/
def memoryBudgetMB (p : NodePolicy) : Nat := p.maxOldSpaceMB.getD 0

/-- Embeds the timeout tiering of `convert_ifc_subprocess`
(backend/app.py, lines 364-373). -/
def convert_ifc_subprocess_timeout (sizeBytes : Nat) : Nat :=
  let fileSizeMB : ℚ := (sizeBytes : ℚ) / (1024 * 1024)
  if fileSizeMB > 100 then 3600
  else if fileSizeMB > 50 then 1800
  else if fileSizeMB > 10 then 1200
  else 600

/-- Python str.lower().endswith(suff), modelled over the character list:
lowercase each character and test the suffix.  Stated over List Char so
concrete instances reduce inside the kernel. -/
def lowerEndsWith (s suff : String) : Bool :=
  suff.data.isSuffixOf (s.data.map Char.toLower)

/-- Environment of one request to the `/api/convert` upload endpoint:
whether the request carries a file part, the uploaded file name, the saved
temp file size in bytes, how running the Node child goes, and the state of
the output artifact after the child ran. -/
structure UploadEnv where
  hasFile : Bool
  filename : String
  sizeBytes : Nat
  launch : LaunchResult
  outputAfter : Option Nat
deriving Repr, DecidableEq

/-- The JSON body and HTTP status returned by the upload endpoint.  Only
the status-bearing fields are modelled; `sizeMB` is the "size_mb" key of
the success body. -/
structure ConvertIfcResponse where
  success : Bool
  error : Option String
  httpStatus : Nat
  sizeMB : Option ℚ
deriving Repr, DecidableEq

/-- Embeds the `convert_ifc` upload endpoint (backend/app.py,
lines 149-271): the three request-validation rejections (lines 152-160),
the tier selection reused from `convert_ifc_policy` (lines 174-204), the
TimeoutExpired handlers returning a 500 timeout error (lines 225-231 and
239-245; the Python message formats the bound in minutes), and the success
test of line 255, which is `returncode == 0 and output_path.exists()` with
no size check.  `LaunchResult.ran b` is the behavior of whichever
subprocess.run produced `result` (the captured run of line 222 or the
line 236 retry after an encoding error); `LaunchResult.raised` is an
exception escaping both, landing in the outer handler of lines 273-280. -/
def convert_ifc_endpoint (env : UploadEnv) : ConvertIfcResponse :=
  if !env.hasFile then
    { success := false, error := some "No file uploaded", httpStatus := 400, sizeMB := none }
  else if env.filename == "" then
    { success := false, error := some "No file selected", httpStatus := 400, sizeMB := none }
  else if !(lowerEndsWith env.filename ".ifc") then
    { success := false, error := some "File must be an IFC file", httpStatus := 400,
      sizeMB := none }
  else
    let timeoutS := (convert_ifc_policy env.sizeBytes).timeoutSeconds
    match env.launch with
    | LaunchResult.raised msg =>
        { success := false, error := some ("Server error: " ++ msg), httpStatus := 500,
          sizeMB := none }
    | LaunchResult.ran b =>
        if b.duration > timeoutS then
          { success := false, error := some "Conversion timed out", httpStatus := 500,
            sizeMB := none }
        else if b.returncode == 0 && env.outputAfter.isSome then
          { success := true, error := none, httpStatus := 200,
            sizeMB := env.outputAfter.map mbOfBytes }
        else
          { success := false
            error := some ("Conversion failed: "
              ++ (if b.stderr != "" then b.stderr else "Conversion failed"))
            httpStatus := 500
            sizeMB := none }

end XSBA

/-! ## Claim theorems -/

namespace XSBA

/-- C4: sink put is idempotent.  If the content hash of the submitted bytes
already exists in the sink table, a second store returns True (the value
every caller treats as storage success), leaves the table unchanged, and
the number of stored records does not increase. -/
theorem C4_sink_put_idempotent (hashFn : Bytes → String) (t : FragmentsTable)
    (f : FragmentFile) (src : String) (meta : ConversionMetadata)
    (h : tableHasHash t (hashFn f.data) = true) :
    store_fragment hashFn true t f src meta = (t, true) ∧
    (store_fragment hashFn true t f src meta).1.length = t.length := by
  constructor
  · simp [store_fragment, h]
  · simp [store_fragment, h]

/-- C4 witness: a concrete sink already holding the hash of the submitted
bytes; the second store is the identity on the table and returns True. -/
theorem C4_sink_put_idempotent_witness :
    tableHasHash
      [{ filename := "a.frag", fileHash := "h0", fragmentData := [1, 2],
         fileSizeBytes := 2, ifcSourceFile := "a.ifc",
         conversionMetadata :=
           { conversionTimeSeconds := 0, inputSizeMB := 0, outputSizeMB := 0,
             compressionRatioPercent := 0, ifcSourcePath := "a.ifc",
             converterVersion := "portable_ifc_fragments_converter",
             projectName := "P", conversionTimestamp := "t", note := none } }]
      ((fun _ => "h0") ([1, 2] : Bytes)) = true ∧
    store_fragment (fun _ => "h0") true
      [{ filename := "a.frag", fileHash := "h0", fragmentData := [1, 2],
         fileSizeBytes := 2, ifcSourceFile := "a.ifc",
         conversionMetadata :=
           { conversionTimeSeconds := 0, inputSizeMB := 0, outputSizeMB := 0,
             compressionRatioPercent := 0, ifcSourcePath := "a.ifc",
             converterVersion := "portable_ifc_fragments_converter",
             projectName := "P", conversionTimestamp := "t", note := none } }]
      { name := "b.frag", data := [1, 2] } "b.ifc"
      { conversionTimeSeconds := 0, inputSizeMB := 0, outputSizeMB := 0,
        compressionRatioPercent := 0, ifcSourcePath := "b.ifc",
        converterVersion := "portable_ifc_fragments_converter",
        projectName := "P", conversionTimestamp := "t", note := none } =
      ([{ filename := "a.frag", fileHash := "h0", fragmentData := [1, 2],
          fileSizeBytes := 2, ifcSourceFile := "a.ifc",
          conversionMetadata :=
            { conversionTimeSeconds := 0, inputSizeMB := 0, outputSizeMB := 0,
              compressionRatioPercent := 0, ifcSourcePath := "a.ifc",
              converterVersion := "portable_ifc_fragments_converter",
              projectName := "P", conversionTimestamp := "t", note := none } }], true) := by
  refine ⟨by decide, ?_⟩
  exact (C4_sink_put_idempotent _ _ _ _ _ (by decide)).1

/-! ### Shared concrete fixtures for witnesses -/

/-- A converter configuration with both sinks enabled. -/
def cfgW : F16Config :=
  { databaseEnabled := true, secondaryDatabaseEnabled := true, projectName := "P" }

/-- Concrete metadata for witnesses. -/
def metaW : ConversionMetadata := process_successful_metadata "P" "a.ifc" "t" 0 0 0

/-- A child that exits promptly with status zero. -/
def okChild : ChildBehavior := { duration := 1, returncode := 0, stdout := "", stderr := "" }

/-- A child that would run far past every timeout tier. -/
def slowChild : ChildBehavior := { duration := 100000, returncode := 0, stdout := "", stderr := "" }

/-- A backend-converter environment with an existing input and a non-empty
output artifact. -/
def xenvW : XfrgEnv :=
  { inputFile := "a.ifc", inputExists := true, launch := LaunchResult.ran okChild,
    outputAfter := some 5 }

/-- An orchestrator item environment where everything succeeds. -/
def fenvW : F16ItemEnv :=
  { name := "a.ifc", path := "/d/a.ifc", inputBytes := [1, 2, 3],
    launch := LaunchResult.ran okChild, outputAfter := some 5, fallbackOk := true,
    ts := "t", primaryStore := true, secondaryStore := true }

/-- An upload-endpoint request environment where everything succeeds. -/
def uenvW : UploadEnv :=
  { hasFile := true, filename := "a.ifc", sizeBytes := 3,
    launch := LaunchResult.ran okChild, outputAfter := some 5 }

/-! ### Helper lemmas shared between claims -/

/-- The item result and trace of the store phase do not depend on the
threaded statistics. -/
theorem store_snd_indep (cfg : F16Config) (pS sS : Bool) (stats stats' : RunStats)
    (n : String) (t : ℚ) (m : ConversionMetadata) :
    (store_fragment_and_return_result cfg pS sS stats n t m).2 =
      (store_fragment_and_return_result cfg pS sS stats' n t m).2 := rfl

/-- The store phase never touches the results sequence. -/
theorem store_results_eq (cfg : F16Config) (pS sS : Bool) (stats : RunStats)
    (n : String) (t : ℚ) (m : ConversionMetadata) :
    ((store_fragment_and_return_result cfg pS sS stats n t m).1).results = stats.results := by
  simp only [store_fragment_and_return_result]
  split_ifs <;> rfl

/-- The fallback result carries the mock converter tag or no metadata, so it
is never marked as a primary-converted success. -/
theorem isPrimarySuccess_fallback (cfg : F16Config) (env : F16ItemEnv) (stats : RunStats) :
    isPrimarySuccess (fallback_mock_conversion cfg env stats).2.1 = false := by
  by_cases h : env.fallbackOk <;>
    simp [fallback_mock_conversion, h, isPrimarySuccess,
      store_fragment_and_return_result, fallback_metadata]

/-- The primary-success result is marked with the portable converter tag. -/
theorem isPrimarySuccess_process (cfg : F16Config) (env : F16ItemEnv) (stats : RunStats)
    (sz : Nat) :
    isPrimarySuccess (process_successful_conversion cfg env stats sz).2.1 = true := by
  simp [process_successful_conversion, isPrimarySuccess,
    store_fragment_and_return_result, process_successful_metadata]

/-- C1: dependent-attempt policy.  In the store phase of a successfully
converted item, with the secondary sink enabled, the secondary store is
attempted exactly when the primary sink is disabled or its store attempt
returned success; when the primary sink is enabled and its attempt failed,
the secondary store is not attempted and the per-item summary records the
distinct not-attempted status for it. -/
theorem C1_dependent_attempt_policy (cfg : F16Config) (pS sS : Bool)
    (stats : RunStats) (n : String) (t : ℚ) (m : ConversionMetadata)
    (hsec : cfg.secondaryDatabaseEnabled = true) :
    (store_fragment_and_return_result cfg pS sS stats n t m).2.2.secondaryAttempted
      = (!cfg.databaseEnabled || pS) ∧
    (cfg.databaseEnabled = true → pS = false →
      (store_fragment_and_return_result cfg pS sS stats n t m).2.2.secondaryAttempted = false ∧
      db2_info cfg (store_fragment_and_return_result cfg pS sS stats n t m).2.1
        = some DB2Status.notAttempted) := by
  cases hdb : cfg.databaseEnabled <;> cases pS <;>
    simp [store_fragment_and_return_result, db2_info, hsec, hdb]

/-- C1 witness: both sinks enabled, primary store fails; the secondary is
not attempted and the summary shows not-attempted. -/
theorem C1_dependent_attempt_policy_witness :
    cfgW.secondaryDatabaseEnabled = true ∧
    ((store_fragment_and_return_result cfgW false false emptyStats "a" 0 metaW).2.2.secondaryAttempted
        = (!cfgW.databaseEnabled || false) ∧
     (cfgW.databaseEnabled = true → false = false →
       (store_fragment_and_return_result cfgW false false emptyStats "a" 0 metaW).2.2.secondaryAttempted
           = false ∧
       db2_info cfgW (store_fragment_and_return_result cfgW false false emptyStats "a" 0 metaW).2.1
           = some DB2Status.notAttempted)) :=
  ⟨rfl, C1_dependent_attempt_policy cfgW false false emptyStats "a" 0 metaW rfl⟩

/-- C2 counterexample: the claim quantifies over every worker invocation,
but the backend subprocess converter accepts a zero exit status with an
existing empty output artifact as success (subprocess_converter.py line 98
checks existence only, not size), so success does not imply a non-empty
artifact. -/
theorem C2_counterexample :
    ¬ (∀ (env : XfrgEnv) (t : Nat), (convert_ifc_file env t).1.success = true →
        ∃ sz, env.outputAfter = some sz ∧ 0 < sz) := by
  intro h
  obtain ⟨sz, hsz, hpos⟩ :=
    h { inputFile := "a.ifc", inputExists := true,
        launch := LaunchResult.ran okChild, outputAfter := some 0 } 600 (by decide)
  have hz : sz = 0 := by simpa using hsz.symm
  omega

/-- C2 amended: on a normal exit, the orchestrator path treats a zero exit
with a missing or empty output artifact as a failed primary attempt (it is
never a primary-converted success; success there needs a zero exit and an
existing non-empty artifact), while the backend subprocess converter and
the upload endpoint yield success exactly when the exit status is zero and
the output artifact exists, with no non-emptiness check. -/
theorem C2_success_requires_output (xenv : XfrgEnv) (t : Nat) (b : ChildBehavior)
    (cfg : F16Config) (fenv : F16ItemEnv) (stats : RunStats) (fb : ChildBehavior)
    (uenv : UploadEnv) (ub : ChildBehavior)
    (hx1 : xenv.inputExists = true) (hx2 : xenv.launch = LaunchResult.ran b)
    (hx3 : b.duration ≤ t)
    (hf : fenv.launch = LaunchResult.ran fb) (hfd : fb.duration ≤ 30)
    (hu1 : uenv.hasFile = true) (hu2 : uenv.filename ≠ "")
    (hu3 : lowerEndsWith uenv.filename ".ifc" = true)
    (hu4 : uenv.launch = LaunchResult.ran ub)
    (hu5 : ub.duration ≤ (convert_ifc_policy uenv.sizeBytes).timeoutSeconds) :
    (convert_ifc_file xenv t).1.success = (b.returncode == 0 && xenv.outputAfter.isSome) ∧
    (convert_ifc_endpoint uenv).success = (ub.returncode == 0 && uenv.outputAfter.isSome) ∧
    isPrimarySuccess (convert_single_file cfg fenv stats).2.1
      = (fb.returncode == 0 &&
          (match fenv.outputAfter with
           | some sz => decide (0 < sz)
           | none => false)) := by
  refine ⟨?_, ?_, ?_⟩
  · have hnt : ¬ b.duration > t := by omega
    by_cases hrc : (b.returncode == 0 && xenv.outputAfter.isSome) = true
    · simp [convert_ifc_file, hx1, hx2, hnt, hrc]
    · simp [convert_ifc_file, hx1, hx2, hnt, hrc]
  · have hnt : ¬ ub.duration > (convert_ifc_policy uenv.sizeBytes).timeoutSeconds := by
      omega
    by_cases hrc : (ub.returncode == 0 && uenv.outputAfter.isSome) = true
    · simp [convert_ifc_endpoint, hu1, hu2, hu3, hu4, hnt, hrc]
    · simp [convert_ifc_endpoint, hu1, hu2, hu3, hu4, hnt, hrc]
  · have hnt : ¬ fb.duration > 30 := by omega
    by_cases hrc : fb.returncode == 0
    · cases hout : fenv.outputAfter with
      | some sz =>
          by_cases hsz : 0 < sz
          · simp [convert_single_file, hf, hnt, hrc, hout, hsz,
              isPrimarySuccess_process]
          · simp [convert_single_file, hf, hnt, hrc, hout, hsz,
              isPrimarySuccess_fallback]
      | none =>
          simp [convert_single_file, hf, hnt, hrc, hout, isPrimarySuccess_fallback]
    · cases hout : fenv.outputAfter with
      | some sz =>
          simp [convert_single_file, hf, hnt, hrc, hout, isPrimarySuccess_fallback]
      | none =>
          simp [convert_single_file, hf, hnt, hrc, hout, isPrimarySuccess_fallback]

/-- C2 witness: a prompt zero-exit child with a non-empty artifact is a
success on all three paths. -/
theorem C2_success_requires_output_witness :
    (xenvW.inputExists = true ∧ xenvW.launch = LaunchResult.ran okChild ∧
      okChild.duration ≤ 600 ∧ fenvW.launch = LaunchResult.ran okChild ∧
      okChild.duration ≤ 30 ∧ uenvW.hasFile = true ∧ uenvW.filename ≠ "" ∧
      lowerEndsWith uenvW.filename ".ifc" = true ∧
      uenvW.launch = LaunchResult.ran okChild ∧
      okChild.duration ≤ (convert_ifc_policy uenvW.sizeBytes).timeoutSeconds) ∧
    ((convert_ifc_file xenvW 600).1.success
        = (okChild.returncode == 0 && xenvW.outputAfter.isSome) ∧
     (convert_ifc_endpoint uenvW).success
        = (okChild.returncode == 0 && uenvW.outputAfter.isSome) ∧
     isPrimarySuccess (convert_single_file cfgW fenvW emptyStats).2.1
        = (okChild.returncode == 0 &&
            (match fenvW.outputAfter with
             | some sz => decide (0 < sz)
             | none => false))) :=
  ⟨⟨rfl, rfl, by decide, rfl, by decide, rfl, by decide, by decide, rfl,
     by norm_num [okChild, uenvW, convert_ifc_policy]⟩,
   C2_success_requires_output xenvW 600 okChild cfgW fenvW emptyStats okChild uenvW okChild
     rfl rfl (by decide) rfl (by decide) rfl (by decide) (by decide) rfl
     (by norm_num [okChild, uenvW, convert_ifc_policy])⟩

/-- C3: timeout enforcement.  A backend worker invocation whose child would
exceed the selected timeout yields a failure result carrying the timeout
reason and bound, the caller blocks at most the timeout bound, and a
timed-out orchestrator invocation never yields a primary-converted success
(it falls into the fallback). -/
theorem C3_timeout_enforcement (xenv : XfrgEnv) (t : Nat) (b : ChildBehavior)
    (cfg : F16Config) (fenv : F16ItemEnv) (stats : RunStats) (fb : ChildBehavior)
    (hx1 : xenv.inputExists = true) (hx2 : xenv.launch = LaunchResult.ran b)
    (hx3 : t < b.duration)
    (hf : fenv.launch = LaunchResult.ran fb) (hfd : 30 < fb.duration) :
    (convert_ifc_file xenv t).1.success = false ∧
    (convert_ifc_file xenv t).1.timeoutField = some t ∧
    (convert_ifc_file xenv t).1.error
      = some ("Conversion timed out after " ++ toString t ++ " seconds") ∧
    (convert_ifc_file xenv t).1.conversionTime ≤ t ∧
    isPrimarySuccess (convert_single_file cfg fenv stats).2.1 = false := by
  have hgt : b.duration > t := hx3
  have hgtf : fb.duration > 30 := hfd
  refine ⟨?_, ?_, ?_, ?_, ?_⟩
  · simp [convert_ifc_file, hx1, hx2, hgt]
  · simp [convert_ifc_file, hx1, hx2, hgt]
  · simp [convert_ifc_file, hx1, hx2, hgt]
  · simp [convert_ifc_file, hx1, hx2, hgt]
  · simp [convert_single_file, hf, hgtf, isPrimarySuccess_fallback]

/-- C3 witness: a child that would run 100000 seconds against a 600 second
timeout, in both the backend converter and the orchestrator. -/
theorem C3_timeout_enforcement_witness :
    (600 < slowChild.duration ∧ 30 < slowChild.duration) ∧
    ((convert_ifc_file { xenvW with launch := LaunchResult.ran slowChild } 600).1.success = false ∧
     (convert_ifc_file { xenvW with launch := LaunchResult.ran slowChild } 600).1.timeoutField
        = some 600 ∧
     isPrimarySuccess
        (convert_single_file cfgW { fenvW with launch := LaunchResult.ran slowChild }
          emptyStats).2.1 = false) := by
  have h := C3_timeout_enforcement { xenvW with launch := LaunchResult.ran slowChild } 600
    slowChild cfgW { fenvW with launch := LaunchResult.ran slowChild } emptyStats slowChild
    rfl rfl (by decide) rfl (by decide)
  exact ⟨⟨by decide, by decide⟩, h.1, h.2.1, h.2.2.2.2⟩

/-- Rewriting the megabyte threshold tests into byte comparisons. -/
theorem mb_gt50_iff (s : Nat) : ((s : ℚ) / (1024 * 1024) > 50) ↔ 52428800 < s := by
  rw [gt_iff_lt, lt_div_iff₀ (by norm_num : (0 : ℚ) < 1024 * 1024),
    show ((50 : ℚ) * (1024 * 1024)) = ((52428800 : Nat) : ℚ) by norm_num, Nat.cast_lt]

/-- Rewriting the 20 MB threshold test into a byte comparison. -/
theorem mb_gt20_iff (s : Nat) : ((s : ℚ) / (1024 * 1024) > 20) ↔ 20971520 < s := by
  rw [gt_iff_lt, lt_div_iff₀ (by norm_num : (0 : ℚ) < 1024 * 1024),
    show ((20 : ℚ) * (1024 * 1024)) = ((20971520 : Nat) : ℚ) by norm_num, Nat.cast_lt]

/-- Rewriting the 100 MB threshold test into a byte comparison. -/
theorem mb_gt100_iff (s : Nat) : ((s : ℚ) / (1024 * 1024) > 100) ↔ 104857600 < s := by
  rw [gt_iff_lt, lt_div_iff₀ (by norm_num : (0 : ℚ) < 1024 * 1024),
    show ((100 : ℚ) * (1024 * 1024)) = ((104857600 : Nat) : ℚ) by norm_num, Nat.cast_lt]

/-- Rewriting the 10 MB threshold test into a byte comparison. -/
theorem mb_gt10_iff (s : Nat) : ((s : ℚ) / (1024 * 1024) > 10) ↔ 10485760 < s := by
  rw [gt_iff_lt, lt_div_iff₀ (by norm_num : (0 : ℚ) < 1024 * 1024),
    show ((10 : ℚ) * (1024 * 1024)) = ((10485760 : Nat) : ℚ) by norm_num, Nat.cast_lt]

/-- The convert_ifc tier selection, stated over byte counts. -/
theorem convert_ifc_policy_eq (s : Nat) : convert_ifc_policy s =
    if 52428800 < s then { maxOldSpaceMB := some 8192, timeoutSeconds := 3600 }
    else if 20971520 < s then { maxOldSpaceMB := some 4096, timeoutSeconds := 1800 }
    else { maxOldSpaceMB := none, timeoutSeconds := 600 } := by
  simp only [convert_ifc_policy, mb_gt50_iff, mb_gt20_iff]

/-- The convert_ifc_subprocess tier selection, stated over byte counts. -/
theorem convert_ifc_subprocess_timeout_eq (s : Nat) : convert_ifc_subprocess_timeout s =
    if 104857600 < s then 3600
    else if 52428800 < s then 1800
    else if 10485760 < s then 1200
    else 600 := by
  simp only [convert_ifc_subprocess_timeout, mb_gt100_iff, mb_gt50_iff, mb_gt10_iff]

/-- C5: resource-policy monotonicity.  For both backend tier selections,
larger inputs never receive a smaller timeout or memory budget, and the
upload endpoint exposes three pairwise distinct (timeout, memory) tiers. -/
theorem C5_policy_monotone :
    (∀ s1 s2 : Nat, s1 < s2 →
      (convert_ifc_policy s1).timeoutSeconds ≤ (convert_ifc_policy s2).timeoutSeconds ∧
      memoryBudgetMB (convert_ifc_policy s1) ≤ memoryBudgetMB (convert_ifc_policy s2) ∧
      convert_ifc_subprocess_timeout s1 ≤ convert_ifc_subprocess_timeout s2) ∧
    (convert_ifc_policy 0 ≠ convert_ifc_policy (21 * 1024 * 1024) ∧
     convert_ifc_policy 0 ≠ convert_ifc_policy (51 * 1024 * 1024) ∧
     convert_ifc_policy (21 * 1024 * 1024) ≠ convert_ifc_policy (51 * 1024 * 1024)) := by
  constructor
  · intro s1 s2 h
    rw [convert_ifc_policy_eq s1, convert_ifc_policy_eq s2,
      convert_ifc_subprocess_timeout_eq s1, convert_ifc_subprocess_timeout_eq s2]
    refine ⟨?_, ?_, ?_⟩ <;> split_ifs <;> simp [memoryBudgetMB] <;> omega
  · rw [convert_ifc_policy_eq, convert_ifc_policy_eq, convert_ifc_policy_eq]
    norm_num

/-- C5 witness: a 0 byte input against a 21 MB input. -/
theorem C5_policy_monotone_witness :
    0 < 21 * 1024 * 1024 ∧
    ((convert_ifc_policy 0).timeoutSeconds
        ≤ (convert_ifc_policy (21 * 1024 * 1024)).timeoutSeconds ∧
     memoryBudgetMB (convert_ifc_policy 0)
        ≤ memoryBudgetMB (convert_ifc_policy (21 * 1024 * 1024)) ∧
     convert_ifc_subprocess_timeout 0
        ≤ convert_ifc_subprocess_timeout (21 * 1024 * 1024)) :=
  ⟨by norm_num, C5_policy_monotone.1 0 (21 * 1024 * 1024) (by norm_num)⟩

/-- C6: fallback artifact determinism and marking.  The placeholder
artifact is the fixed sentinel header, at most the first 1024 input bytes,
and the fixed sentinel footer, so its size is bounded by 1066 bytes
independent of the input size; a successful fallback records metadata
tagged with the mock converter version, which no primary-success metadata
ever carries. -/
theorem C6_fallback_artifact (input : Bytes) (cfg : F16Config) (env : F16ItemEnv)
    (stats : RunStats) (hok : env.fallbackOk = true) :
    (fallbackArtifact input).length = 21 + min 1024 input.length + 21 ∧
    (fallbackArtifact input).length ≤ 1066 ∧
    (fallbackArtifact input).take 21 = mockHeader ∧
    (∃ m, (fallback_mock_conversion cfg env stats).2.1.meta = some m ∧
      m.converterVersion = "mock_converter_fallback" ∧
      m.outputSizeMB = mbOfBytes (fallbackArtifact env.inputBytes).length) ∧
    (∀ (pn path ts : String) (il ol : Nat) (ct : ℚ),
      (process_successful_metadata pn path ts il ol ct).converterVersion
        ≠ "mock_converter_fallback") := by
  have hlen : (fallbackArtifact input).length = 21 + min 1024 input.length + 21 := by
    simp [fallbackArtifact, List.length_append, List.length_take]
    have h1 : mockHeader.length = 21 := by decide
    have h2 : mockFooter.length = 21 := by decide
    omega
  refine ⟨hlen, ?_, ?_, ?_, ?_⟩
  · have := min_le_left 1024 input.length
    omega
  · have h1 : mockHeader.length = 21 := by decide
    rw [fallbackArtifact, List.append_assoc, ← h1, List.take_left]
  · refine ⟨fallback_metadata cfg.projectName env.path env.ts
      env.inputBytes.length (fallbackArtifact env.inputBytes).length (elapsedOf env),
      ?_, rfl, rfl⟩
    simp [fallback_mock_conversion, hok, store_fragment_and_return_result]
  · intro pn path ts il ol ct
    simp [process_successful_metadata]

/-- C6 witness: the everything-succeeds environment has fallbackOk set, and
its fallback artifact and metadata satisfy the property. -/
theorem C6_fallback_artifact_witness :
    fenvW.fallbackOk = true ∧
    ((fallbackArtifact [1, 2, 3]).length = 21 + min 1024 3 + 21 ∧
     (fallbackArtifact [1, 2, 3]).length ≤ 1066) := by
  have h := C6_fallback_artifact [1, 2, 3] cfgW fenvW emptyStats rfl
  exact ⟨rfl, by simpa using h.1, h.2.1⟩

/-! ### Run-loop lemmas for the completion and ordering claims -/

/-- The fallback result and trace do not depend on the threaded
statistics. -/
theorem fallback_snd_indep (cfg : F16Config) (env : F16ItemEnv) (stats : RunStats) :
    (fallback_mock_conversion cfg env stats).2 =
      (fallback_mock_conversion cfg env emptyStats).2 := by
  by_cases h : env.fallbackOk <;> simp [fallback_mock_conversion, h]
  exact ⟨rfl, rfl⟩

/-- The primary-success result and trace do not depend on the threaded
statistics. -/
theorem process_snd_indep (cfg : F16Config) (env : F16ItemEnv) (stats : RunStats)
    (sz : Nat) :
    (process_successful_conversion cfg env stats sz).2 =
      (process_successful_conversion cfg env emptyStats sz).2 := rfl

/-- The fallback never touches the results sequence. -/
theorem fallback_results_eq (cfg : F16Config) (env : F16ItemEnv) (stats : RunStats) :
    ((fallback_mock_conversion cfg env stats).1).results = stats.results := by
  by_cases h : env.fallbackOk <;>
    simp [fallback_mock_conversion, h, store_results_eq]

/-- The primary-success path never touches the results sequence. -/
theorem process_results_eq (cfg : F16Config) (env : F16ItemEnv) (stats : RunStats)
    (sz : Nat) :
    ((process_successful_conversion cfg env stats sz).1).results = stats.results := by
  simp [process_successful_conversion, store_results_eq]

/-- One conversion yields the same result-trace pair whatever statistics
are threaded through it. -/
theorem convert_single_file_snd_indep (cfg : F16Config) (env : F16ItemEnv)
    (stats : RunStats) :
    (convert_single_file cfg env stats).2 = (convert_single_file cfg env emptyStats).2 := by
  cases henv : env.launch with
  | raised msg =>
      simp only [convert_single_file, henv]
      exact fallback_snd_indep cfg env stats
  | ran b =>
      simp only [convert_single_file, henv]
      split_ifs with h1 h2
      · exact fallback_snd_indep cfg env stats
      · cases hout : env.outputAfter with
        | some sz =>
            simp only []
            split_ifs with h3
            · exact process_snd_indep cfg env stats sz
            · exact fallback_snd_indep cfg env stats
        | none => exact fallback_snd_indep cfg env stats
      · exact fallback_snd_indep cfg env stats

/-- One conversion returns the same per-item result whatever statistics are
threaded through it. -/
theorem convert_single_file_result (cfg : F16Config) (env : F16ItemEnv) (stats : RunStats) :
    (convert_single_file cfg env stats).2.1 = itemResult cfg env :=
  congrArg Prod.fst (convert_single_file_snd_indep cfg env stats)

/-- One conversion never touches the results sequence itself. -/
theorem convert_single_file_results (cfg : F16Config) (env : F16ItemEnv) (stats : RunStats) :
    ((convert_single_file cfg env stats).1).results = stats.results := by
  cases henv : env.launch with
  | raised msg =>
      simp only [convert_single_file, henv]
      exact fallback_results_eq cfg env stats
  | ran b =>
      simp only [convert_single_file, henv]
      split_ifs with h1 h2
      · exact fallback_results_eq cfg env stats
      · cases hout : env.outputAfter with
        | some sz =>
            simp only []
            split_ifs with h3
            · exact process_results_eq cfg env stats sz
            · exact fallback_results_eq cfg env stats
        | none => exact fallback_results_eq cfg env stats
      · exact fallback_results_eq cfg env stats

/-- Each loop iteration appends exactly the result record of its item. -/
theorem processItem_results (cfg : F16Config) (acc : RunStats) (env : F16ItemEnv) :
    (processItem cfg acc env).results = acc.results ++ [itemResult cfg env] := by
  have h1 := convert_single_file_results cfg env acc
  have h2 := convert_single_file_result cfg env acc
  simp only [processItem]
  split_ifs <;> simp [h1, h2]

/-- Folding the loop over a list of items appends their result records in
processing order. -/
theorem foldl_processItem_results (cfg : F16Config) :
    ∀ (items : List F16ItemEnv) (acc : RunStats),
      (items.foldl (processItem cfg) acc).results
        = acc.results ++ items.map (itemResult cfg)
  | [], acc => by simp
  | e :: es, acc => by
      rw [List.foldl_cons, foldl_processItem_results cfg es, processItem_results,
        List.map_cons, List.append_assoc, List.singleton_append]

/-- C7 counterexample: a run that discovers no work items returns before
`print_summary`, so no report save is ever reached, against the claim that
every run completes with a saved report. -/
theorem C7_counterexample :
    ¬ (∀ (cfg : F16Config) (items : List F16ItemEnv) (w : Bool),
        (convert_all_files cfg items w).reportAttempted = true) := by
  intro h
  have := h cfgW [] true
  simp [convert_all_files] at this

/-- C7 amended: every run produces exactly one result record per discovered
item (per-item processing is total and never escapes the orchestrator), and
every run that discovered at least one item reaches the report save; a
report-write failure changes only whether the report was saved, never the
run statistics. -/
theorem C7_run_completion (cfg : F16Config) (items : List F16ItemEnv) (w : Bool) :
    (convert_all_files cfg items w).stats.results.length = items.length ∧
    (items ≠ [] → (convert_all_files cfg items w).reportAttempted = true ∧
      (convert_all_files cfg items w).reportSaved = w) ∧
    (convert_all_files cfg items w).stats = (convert_all_files cfg items true).stats := by
  by_cases h : items.isEmpty
  · have hnil : items = [] := List.isEmpty_iff.mp h
    subst hnil
    refine ⟨by simp [convert_all_files, emptyStats], fun hne => absurd rfl hne, rfl⟩
  · refine ⟨?_, fun _ => ⟨?_, ?_⟩, ?_⟩
    · simp [convert_all_files, h, foldl_processItem_results, emptyStats]
    · simp [convert_all_files, h]
    · cases w <;> simp [convert_all_files, h, save_report]
    · simp [convert_all_files, h]

/-- C7 witness: a one-item run with a failing report write still reaches the
report save and completes. -/
theorem C7_run_completion_witness :
    ([fenvW] ≠ ([] : List F16ItemEnv)) ∧
    ((convert_all_files cfgW [fenvW] false).reportAttempted = true ∧
     (convert_all_files cfgW [fenvW] false).reportSaved = false) :=
  ⟨by simp, (C7_run_completion cfgW [fenvW] false).2.1 (by simp)⟩

/-- C8: deterministic processing order.  Discovery returns the matching
names strictly sorted in lexicographic order with duplicates removed, and a
run's result sequence is exactly the image of the discovered items in that
same order, one record per item. -/
theorem C8_deterministic_order :
    (∀ entries : List String,
      (find_ifc_files entries).Sorted (· < ·) ∧
      ∀ x, x ∈ find_ifc_files entries ↔
        (x ∈ entries ∧ (x.endsWith ".ifc" || x.endsWith ".IFC") = true)) ∧
    (∀ (cfg : F16Config) (items : List F16ItemEnv) (w : Bool), items ≠ [] →
      (convert_all_files cfg items w).stats.results = items.map (itemResult cfg)) := by
  constructor
  · intro entries
    constructor
    · have hs : (find_ifc_files entries).Sorted (· ≤ ·) :=
        List.sorted_insertionSort _ _
      have hn : (find_ifc_files entries).Nodup :=
        (List.perm_insertionSort _ _).nodup_iff.mpr (List.nodup_dedup _)
      exact (hs.and hn).imp fun h => lt_of_le_of_ne h.1 h.2
    · intro x
      rw [find_ifc_files,
        (List.perm_insertionSort (· ≤ ·)
          ((entries.filter (fun n => n.endsWith ".ifc")
            ++ entries.filter (fun n => n.endsWith ".IFC")).dedup)).mem_iff,
        List.mem_dedup, List.mem_append, List.mem_filter, List.mem_filter]
      simp only [Bool.or_eq_true]
      exact and_or_left.symm
  · intro cfg items w h
    have hne : items.isEmpty = false := by
      cases items with
      | nil => exact absurd rfl h
      | cons e es => rfl
    simp [convert_all_files, hne, foldl_processItem_results, emptyStats]

/-- C8 witness: a one-item run produces exactly that item's record. -/
theorem C8_deterministic_order_witness :
    ([fenvW] ≠ ([] : List F16ItemEnv)) ∧
    (convert_all_files cfgW [fenvW] true).stats.results = [fenvW].map (itemResult cfgW) :=
  ⟨by simp, C8_deterministic_order.2 cfgW [fenvW] true (by simp)⟩

/-- C9: the compression statistics never divide by zero.  For a zero-byte
input file the guarded formula defines the compression ratio to be 0, in
both the primary-success metadata and the fallback metadata. -/
theorem C9_compression_ratio_guard (pn path ts : String) (outLen : Nat) (ct : ℚ) :
    (process_successful_metadata pn path ts 0 outLen ct).compressionRatioPercent = 0 ∧
    (fallback_metadata pn path ts 0 outLen ct).compressionRatioPercent = 0 := by
  constructor <;>
    simp [process_successful_metadata, fallback_metadata, mbOfBytes]

/-- C10: the backend converter is total on a missing input: it returns the
failure dict with the not-found message and zero conversion time, and never
launches a child process. -/
theorem C10_missing_input (env : XfrgEnv) (t : Nat) (h : env.inputExists = false) :
    (convert_ifc_file env t).1 =
      { success := false
        error := some ("Input file not found: " ++ env.inputFile)
        conversionTime := 0
        timeoutField := none
        returnCodeField := none
        fileSize := none } ∧
    (convert_ifc_file env t).2 = false := by
  constructor <;> simp [convert_ifc_file, h]

/-- C10 witness: a concrete missing input. -/
theorem C10_missing_input_witness :
    ({ xenvW with inputExists := false } : XfrgEnv).inputExists = false ∧
    (convert_ifc_file { xenvW with inputExists := false } 600).2 = false :=
  ⟨rfl, (C10_missing_input { xenvW with inputExists := false } 600 rfl).2⟩

end XSBA
